import Mathlib

/-
  Shallow embedding of the Smart Restaurant backend (src/main.py, src/database.py,
  src/schemas.py).

  The document store is modelled as association lists from string ids to documents,
  one list per collection, plus a counter used to generate fresh ids (standing in
  for MongoDB ObjectId assignment).  Prices and money amounts are modelled as
  rationals; Python's `round(x, 2)` (round-half-to-even at two decimal places)
  is modelled explicitly by `pyRound2`.  Each HTTP handler becomes a pure function
  from the store state and the request payload to an `Except` of the error it can
  raise and the new state plus response.
-/

namespace SmartRestaurant

/-- The integer of hundredths chosen by Python `round(x, 2)`: the floor of
100x, bumped by one when the fractional part exceeds one half, and on an exact
half tie bumped only when the floor is odd (ties to the even hundredth). -/
def pyRound2Int (q : ℚ) : ℤ :=
  if q * 100 - (Int.floor (q * 100) : ℚ) < 1/2 then Int.floor (q * 100)
  else if 1/2 < q * 100 - (Int.floor (q * 100) : ℚ) then Int.floor (q * 100) + 1
  else if Int.floor (q * 100) % 2 = 0 then Int.floor (q * 100)
  else Int.floor (q * 100) + 1

/-- Python `round(x, 2)`: round to 2 decimal places, ties to the even hundredth. -/
def pyRound2 (q : ℚ) : ℚ :=
  (pyRound2Int q : ℚ) / 100

/-- `payment_method` literal of `OrderCreate` in src/main.py. -/
inductive PaymentMethod
  | online
  | cash
deriving DecidableEq, Repr

/-- Order `status` literal of `OrderStatusUpdate` in src/main.py. -/
inductive OrderStatus
  | pending
  | preparing
  | served
  | completed
  | cancelled
deriving DecidableEq, Repr

/-- `payment_status` values of the Order schema (src/schemas.py). -/
inductive PaymentStatus
  | unpaid
  | pending
  | paid
  | failed
deriving DecidableEq, Repr

/-- `status` literal of `PaymentConfirm` in src/main.py. -/
inductive PaymentOutcome
  | succeeded
  | failed
deriving DecidableEq, Repr

/-- A stored `menuitem` document.  Fields the code reads with `doc.get` are
optional, matching a raw document that may lack them. -/
structure MenuDoc where
  name : Option String
  description : Option String
  price : Option ℚ
  category : Option String
  image_url : Option String
  is_available : Bool
deriving DecidableEq, Repr

/-- A snapshot line item appended to `order_items` in `create_order`. -/
structure OrderLine where
  item_id : String
  name : String
  price : ℚ
  quantity : ℕ
  line_total : ℚ
deriving DecidableEq, Repr

/-- A stored `order` document as assembled by `create_order`. -/
structure OrderDoc where
  table_id : String
  items : List OrderLine
  subtotal : ℚ
  payment_method : PaymentMethod
  status : OrderStatus
  payment_status : PaymentStatus
  notes : Option String
deriving DecidableEq, Repr

/-- A stored `paymentrecord` document as assembled by `create_order`. -/
structure PaymentDoc where
  order_id : String
  provider : String
  amount : ℚ
  currency : String
  status : String
  transaction_id : Option String
deriving DecidableEq, Repr

/-- The document store: one association list per collection used by the order
flow, plus a counter generating fresh ids in place of ObjectId assignment. -/
structure DB where
  menuitem : List (String × MenuDoc)
  orders : List (String × OrderDoc)
  payments : List (String × PaymentDoc)
  nextId : ℕ
deriving DecidableEq, Repr

/-- Lookup of the document stored under an id (MongoDB `find_one` by `_id`). -/
def findDoc {α : Type} (l : List (String × α)) (i : String) : Option α :=
  match l with
  | [] => none
  | (k, v) :: rest => if k = i then some v else findDoc rest i

/-- Replace the document stored under an id (MongoDB `update_one` `$set` merge,
after the merged document has been computed); a miss leaves the list unchanged. -/
def setDoc {α : Type} (l : List (String × α)) (i : String) (v : α) : List (String × α) :=
  match l with
  | [] => []
  | (k, w) :: rest => if k = i then (k, v) :: rest else (k, w) :: setDoc rest i v

/-- Insert a new document under a fresh id (`insert_one`). -/
def insertDoc {α : Type} (l : List (String × α)) (i : String) (v : α) : List (String × α) :=
  l ++ [(i, v)]

/-- Fresh string id generated for the n-th created document. -/
def genId (n : ℕ) : String :=
  "oid" ++ toString n

/-- One requested line of `OrderCreate.items` (`OrderItemIn` in src/main.py). -/
structure OrderItemIn where
  item_id : String
  quantity : ℕ
deriving DecidableEq, Repr

/-- The `OrderCreate` request body. -/
structure OrderCreate where
  table_id : String
  items : List OrderItemIn
  payment_method : PaymentMethod
  notes : Option String
deriving DecidableEq, Repr

/-- The `MenuUpdate` request body: every field optional. -/
structure MenuUpdate where
  name : Option String
  description : Option String
  price : Option ℚ
  category : Option String
  image_url : Option String
  is_available : Option Bool
deriving DecidableEq, Repr

/-- The payment object embedded in a successful online-order response. -/
structure PaymentResp where
  id : String
  order_id : String
  provider : String
  amount : ℚ
  currency : String
  status : String
  transaction_id : Option String
deriving DecidableEq, Repr

/-- The response body of POST /api/order. -/
structure OrderResponse where
  order_id : String
  subtotal : ℚ
  payment : Option PaymentResp
deriving DecidableEq, Repr

/-- `price_map.get(item_id)`: present iff the menu document was found by `_id`;
the value is `float(doc.get("price", 0))`. -/
def priceMapGet (menu : List (String × MenuDoc)) (i : String) : Option ℚ :=
  (findDoc menu i).map (fun d => d.price.getD 0)

/-- `name_map.get(item_id, "Item")`: the found document's `doc.get("name", "Item")`. -/
def nameMapGet (menu : List (String × MenuDoc)) (i : String) : String :=
  match findDoc menu i with
  | some d => d.name.getD "Item"
  | none => "Item"

/-- The pricing loop of `create_order` (src/main.py lines 128-142): walks the
requested items in order, aborts with the first unresolved item id, otherwise
accumulates unrounded line totals into the subtotal and snapshots each line. -/
def computeLines (menu : List (String × MenuDoc)) :
    List OrderItemIn → Except String (List OrderLine × ℚ)
  | [] => Except.ok ([], 0)
  | it :: rest =>
    match priceMapGet menu it.item_id with
    | none => Except.error it.item_id
    | some price =>
      match computeLines menu rest with
      | Except.error e => Except.error e
      | Except.ok (lines, sub) =>
        Except.ok
          ({ item_id := it.item_id
             name := nameMapGet menu it.item_id
             price := price
             quantity := it.quantity
             line_total := price * (it.quantity : ℚ) } :: lines,
           price * (it.quantity : ℚ) + sub)

/-- The snapshot line `create_order` builds for one resolved requested item. -/
def mkLine (menu : List (String × MenuDoc)) (it : OrderItemIn) : OrderLine :=
  { item_id := it.item_id
    name := nameMapGet menu it.item_id
    price := (priceMapGet menu it.item_id).getD 0
    quantity := it.quantity
    line_total := (priceMapGet menu it.item_id).getD 0 * (it.quantity : ℚ) }

/-- POST /api/order (`create_order` in src/main.py): resolve and price the items,
persist the order, and for online payment persist a pending mock payment record;
an unresolved item id aborts with a 400 naming that id, before any write. -/
def create_order (db : DB) (p : OrderCreate) : Except String (DB × OrderResponse) :=
  match computeLines db.menuitem p.items with
  | Except.error i => Except.error i
  | Except.ok (lines, subtotal) =>
    let orderDoc : OrderDoc :=
      { table_id := p.table_id
        items := lines
        subtotal := pyRound2 subtotal
        payment_method := p.payment_method
        status := OrderStatus.pending
        payment_status :=
          if p.payment_method = PaymentMethod.cash then PaymentStatus.unpaid
          else PaymentStatus.pending
        notes := p.notes }
    let orderId := genId db.nextId
    let db1 : DB :=
      { db with orders := insertDoc db.orders orderId orderDoc, nextId := db.nextId + 1 }
    match p.payment_method with
    | PaymentMethod.cash =>
      Except.ok (db1, { order_id := orderId, subtotal := pyRound2 subtotal, payment := none })
    | PaymentMethod.online =>
      let payDoc : PaymentDoc :=
        { order_id := orderId
          provider := "mock"
          amount := pyRound2 subtotal
          currency := "INR"
          status := "pending"
          transaction_id := none }
      let payId := genId db1.nextId
      let db2 : DB :=
        { db1 with payments := insertDoc db1.payments payId payDoc, nextId := db1.nextId + 1 }
      Except.ok
        (db2,
         { order_id := orderId
           subtotal := pyRound2 subtotal
           payment := some
             { id := payId
               order_id := orderId
               provider := "mock"
               amount := pyRound2 subtotal
               currency := "INR"
               status := "pending"
               transaction_id := none } })

/-- The `$set` merge performed by PUT /api/menu/{id}: only fields of the payload
that are not None are applied; every other stored field is left as it was. -/
def applyMenuUpdate (u : MenuUpdate) (d : MenuDoc) : MenuDoc where
  name := match u.name with | some v => some v | none => d.name
  description := match u.description with | some v => some v | none => d.description
  price := match u.price with | some v => some v | none => d.price
  category := match u.category with | some v => some v | none => d.category
  image_url := match u.image_url with | some v => some v | none => d.image_url
  is_available := match u.is_available with | some v => v | none => d.is_available

/-- PUT /api/menu/{item_id} (`update_menu_item` in src/main.py): 404 when the id
matches no menu document, otherwise merge the non-None payload fields. -/
def update_menu_item (db : DB) (i : String) (u : MenuUpdate) : Except ℕ DB :=
  match findDoc db.menuitem i with
  | none => Except.error 404
  | some d =>
    Except.ok { db with menuitem := setDoc db.menuitem i (applyMenuUpdate u d) }

/-- PATCH /api/order/{order_id}/status (`set_order_status` in src/main.py):
404 when the id matches no order, otherwise set the status unconditionally. -/
def set_order_status (db : DB) (i : String) (st : OrderStatus) : Except ℕ DB :=
  match findDoc db.orders i with
  | none => Except.error 404
  | some o =>
    Except.ok { db with orders := setDoc db.orders i { o with status := st } }

/-- The payment status written by `confirm_mock_payment` for each outcome. -/
def confirmTarget : PaymentOutcome → PaymentStatus
  | PaymentOutcome.succeeded => PaymentStatus.paid
  | PaymentOutcome.failed => PaymentStatus.failed

/-- POST /api/payment/mock/confirm (`confirm_mock_payment` in src/main.py):
404 when the order does not exist, otherwise set its payment_status to "paid"
for outcome "succeeded" and to "failed" for outcome "failed", unconditionally. -/
def confirm_mock_payment (db : DB) (i : String) (outcome : PaymentOutcome) :
    Except ℕ (DB × PaymentStatus) :=
  match findDoc db.orders i with
  | none => Except.error 404
  | some o =>
    let target := confirmTarget outcome
    Except.ok
      ({ db with orders := setDoc db.orders i { o with payment_status := target } }, target)

/-- Mark one menu document unavailable, leaving every other field as it is. -/
def clearAvail (d : MenuDoc) : MenuDoc :=
  { d with is_available := false }

/-- The same store with every menu item marked unavailable; `create_order` never
reads the availability flag, so results are invariant under this change. -/
def setUnavailable (db : DB) : DB :=
  { db with menuitem := db.menuitem.map (fun kd => (kd.1, clearAvail kd.2)) }

/- Concrete stores and payloads used to witness the theorems below. -/

/-- A one-item menu store used to witness the invalid-item abort. -/
def dbC1 : DB :=
  { menuitem := [("m1",
      { name := some "Tea", description := none, price := some 10,
        category := none, image_url := none, is_available := true })]
    orders := []
    payments := []
    nextId := 0 }

/-- A request naming one resolvable and one unresolvable item id. -/
def pC1 : OrderCreate :=
  { table_id := "t1"
    items := [{ item_id := "m1", quantity := 1 }, { item_id := "mX", quantity := 2 }]
    payment_method := PaymentMethod.online
    notes := none }

/-- The two-item menu of the worked subtotal example (prices 120.00 and 75.50). -/
def dbC2 : DB :=
  { menuitem :=
      [("a", { name := some "A", description := none, price := some 120,
               category := none, image_url := none, is_available := true }),
       ("b", { name := some "B", description := none, price := some (151/2),
               category := none, image_url := none, is_available := true })]
    orders := []
    payments := []
    nextId := 0 }

/-- The worked subtotal example request: item a twice, item b once, cash. -/
def pC2 : OrderCreate :=
  { table_id := "t1"
    items := [{ item_id := "a", quantity := 2 }, { item_id := "b", quantity := 1 }]
    payment_method := PaymentMethod.cash
    notes := none }

/-- A menu whose single item has a price with three decimal places. -/
def dbC3 : DB :=
  { menuitem := [("m",
      { name := some "Juice", description := none, price := some (333/1000),
        category := none, image_url := none, is_available := true })]
    orders := []
    payments := []
    nextId := 0 }

/-- A cash request for one unit of the three-decimal-priced item. -/
def pC3 : OrderCreate :=
  { table_id := "t3"
    items := [{ item_id := "m", quantity := 1 }]
    payment_method := PaymentMethod.cash
    notes := none }

/-- A one-item menu used to witness the online-payment branch. -/
def dbC4 : DB :=
  { menuitem := [("m4",
      { name := some "Curry", description := none, price := some 50,
        category := none, image_url := none, is_available := true })]
    orders := []
    payments := []
    nextId := 0 }

/-- An online request for two units of the item. -/
def pC4 : OrderCreate :=
  { table_id := "t4"
    items := [{ item_id := "m4", quantity := 2 }]
    payment_method := PaymentMethod.online
    notes := none }

/-- A stored cash order whose payment status is still unpaid. -/
def odC5 : OrderDoc :=
  { table_id := "t5"
    items := []
    subtotal := 0
    payment_method := PaymentMethod.cash
    status := OrderStatus.pending
    payment_status := PaymentStatus.unpaid
    notes := none }

/-- A store holding the single order `odC5` under id o5. -/
def dbC5 : DB :=
  { menuitem := [], orders := [("o5", odC5)], payments := [], nextId := 1 }

/-- A stored order used to witness the status transition endpoint. -/
def odC6 : OrderDoc :=
  { table_id := "t6"
    items := []
    subtotal := 0
    payment_method := PaymentMethod.online
    status := OrderStatus.served
    payment_status := PaymentStatus.paid
    notes := none }

/-- A store holding the single order `odC6` under id o6. -/
def dbC6 : DB :=
  { menuitem := [], orders := [("o6", odC6)], payments := [], nextId := 1 }

/-- A menu item later subjected to a price update. -/
def mC7 : MenuDoc :=
  { name := some "Dosa", description := some "plain", price := some 40,
    category := some "South", image_url := none, is_available := true }

/-- A stored order snapshotting `mC7` at its original price. -/
def odC7 : OrderDoc :=
  { table_id := "t7"
    items := [{ item_id := "m7", name := "Dosa", price := 40, quantity := 1, line_total := 40 }]
    subtotal := 40
    payment_method := PaymentMethod.cash
    status := OrderStatus.pending
    payment_status := PaymentStatus.unpaid
    notes := none }

/-- A store holding menu item `mC7` and the order `odC7` that snapshots it. -/
def dbC7 : DB :=
  { menuitem := [("m7", mC7)], orders := [("o7", odC7)], payments := [], nextId := 2 }

/-- A price-only menu update raising the price of `mC7`. -/
def uC7 : MenuUpdate :=
  { name := none, description := none, price := some 60,
    category := none, image_url := none, is_available := none }

/-- The store after applying `uC7` to m7: only the menuitem collection changes. -/
def updatedC7 : DB :=
  { dbC7 with menuitem := setDoc dbC7.menuitem "m7" (applyMenuUpdate uC7 mC7) }

/-- A menu document that lacks a price field entirely. -/
def mC9 : MenuDoc :=
  { name := some "Mystery", description := none, price := none,
    category := none, image_url := none, is_available := true }

/-- A store holding only the priceless menu document. -/
def dbC9 : DB :=
  { menuitem := [("m9", mC9)], orders := [], payments := [], nextId := 0 }

/-- A cash request for three units of the priceless item. -/
def pC9 : OrderCreate :=
  { table_id := "t9"
    items := [{ item_id := "m9", quantity := 3 }]
    payment_method := PaymentMethod.cash
    notes := none }

/-- A menu document with all optional fields populated. -/
def mC10 : MenuDoc :=
  { name := some "Idli", description := some "steamed", price := some 30,
    category := some "South", image_url := some "http://img", is_available := true }

/-- A store holding the fully populated menu document. -/
def dbC10 : DB :=
  { menuitem := [("m10", mC10)], orders := [], payments := [], nextId := 0 }

/-- An update naming no field at all: every stored field must survive. -/
def uC10 : MenuUpdate :=
  { name := none, description := none, price := none,
    category := none, image_url := none, is_available := none }

/- Helper lemmas about the store primitives and the pricing loop. -/

theorem pyRound2_eq_self (q : ℚ) (n : ℤ) (h : q * 100 = (n : ℚ)) : pyRound2 q = q := by
  have hfl : Int.floor (q * 100) = n := by
    rw [h]
    exact Int.floor_intCast n
  have hcond : q * 100 - (Int.floor (q * 100) : ℚ) < 1/2 := by
    rw [hfl, h]
    norm_num
  unfold pyRound2 pyRound2Int
  rw [if_pos hcond, hfl, ← h]
  ring

theorem pyRound2_eq_down (q : ℚ) (n : ℤ) (h1 : (n : ℚ) ≤ q * 100)
    (h2 : q * 100 - (n : ℚ) < 1/2) : pyRound2 q = (n : ℚ) / 100 := by
  have hfl : Int.floor (q * 100) = n := by
    rw [Int.floor_eq_iff]
    constructor
    · exact h1
    · linarith
  have hcond : q * 100 - (Int.floor (q * 100) : ℚ) < 1/2 := by
    rw [hfl]
    exact h2
  unfold pyRound2 pyRound2Int
  rw [if_pos hcond, hfl]

theorem priceMapGet_eq_none_iff (menu : List (String × MenuDoc)) (i : String) :
    priceMapGet menu i = none ↔ findDoc menu i = none := by
  unfold priceMapGet
  cases findDoc menu i <;> simp

theorem findDoc_setDoc_self {α : Type} (l : List (String × α)) (i : String) (v o : α)
    (h : findDoc l i = some o) : findDoc (setDoc l i v) i = some v := by
  induction l with
  | nil => simp [findDoc] at h
  | cons hd tl ih =>
    obtain ⟨k, w⟩ := hd
    by_cases hk : k = i
    · simp [findDoc, setDoc, hk]
    · simp only [findDoc, setDoc, if_neg hk] at h ⊢
      exact ih h

theorem findDoc_insertDoc_fresh {α : Type} (l : List (String × α)) (i : String) (v : α)
    (h : findDoc l i = none) : findDoc (insertDoc l i v) i = some v := by
  induction l with
  | nil => simp [insertDoc, findDoc]
  | cons hd tl ih =>
    obtain ⟨k, w⟩ := hd
    by_cases hk : k = i
    · simp [findDoc, if_pos hk] at h
    · simp only [findDoc, insertDoc, List.cons_append, if_neg hk] at h ⊢
      exact ih h

theorem computeLines_ok (menu : List (String × MenuDoc)) (items : List OrderItemIn)
    (h : ∀ it ∈ items, priceMapGet menu it.item_id ≠ none) :
    computeLines menu items =
      Except.ok (items.map (mkLine menu),
        (items.map (fun it =>
          (priceMapGet menu it.item_id).getD 0 * (it.quantity : ℚ))).sum) := by
  induction items with
  | nil => simp [computeLines]
  | cons it rest ih =>
    have hhd : priceMapGet menu it.item_id ≠ none := h it (by simp)
    obtain ⟨price, hp⟩ := Option.ne_none_iff_exists'.mp hhd
    have hrest : ∀ x ∈ rest, priceMapGet menu x.item_id ≠ none := by
      intro x hx
      exact h x (List.mem_cons_of_mem _ hx)
    simp only [computeLines, hp, ih hrest, List.map_cons, List.sum_cons]
    simp [mkLine, hp]

theorem computeLines_error (menu : List (String × MenuDoc)) (items : List OrderItemIn)
    (h : ∃ it ∈ items, priceMapGet menu it.item_id = none) :
    ∃ i, computeLines menu items = Except.error i ∧
      priceMapGet menu i = none ∧ ∃ it ∈ items, it.item_id = i := by
  induction items with
  | nil => simp at h
  | cons it rest ih =>
    cases hp : priceMapGet menu it.item_id with
    | none =>
      exact ⟨it.item_id, by simp [computeLines, hp], hp, it, by simp, rfl⟩
    | some price =>
      have hrest : ∃ x ∈ rest, priceMapGet menu x.item_id = none := by
        obtain ⟨x, hx, hxn⟩ := h
        rcases List.mem_cons.mp hx with rfl | hx'
        · rw [hp] at hxn
          exact absurd hxn (by simp)
        · exact ⟨x, hx', hxn⟩
      obtain ⟨i, herr, hin, x, hx, hxi⟩ := ih hrest
      exact ⟨i, by simp [computeLines, hp, herr], hin, x, List.mem_cons_of_mem _ hx, hxi⟩

theorem create_order_ok_cash (db : DB) (p : OrderCreate) (lines : List OrderLine) (S : ℚ)
    (hcl : computeLines db.menuitem p.items = Except.ok (lines, S))
    (hpm : p.payment_method = PaymentMethod.cash) :
    create_order db p = Except.ok
      ({ db with
          orders := insertDoc db.orders (genId db.nextId)
            { table_id := p.table_id, items := lines, subtotal := pyRound2 S,
              payment_method := p.payment_method, status := OrderStatus.pending,
              payment_status := PaymentStatus.unpaid, notes := p.notes },
          nextId := db.nextId + 1 },
       { order_id := genId db.nextId, subtotal := pyRound2 S, payment := none }) := by
  simp [create_order, hcl, hpm]

theorem create_order_ok_online (db : DB) (p : OrderCreate) (lines : List OrderLine) (S : ℚ)
    (hcl : computeLines db.menuitem p.items = Except.ok (lines, S))
    (hpm : p.payment_method = PaymentMethod.online) :
    create_order db p = Except.ok
      ({ db with
          orders := insertDoc db.orders (genId db.nextId)
            { table_id := p.table_id, items := lines, subtotal := pyRound2 S,
              payment_method := p.payment_method, status := OrderStatus.pending,
              payment_status := PaymentStatus.pending, notes := p.notes },
          payments := insertDoc db.payments (genId (db.nextId + 1))
            { order_id := genId db.nextId, provider := "mock", amount := pyRound2 S,
              currency := "INR", status := "pending", transaction_id := none },
          nextId := db.nextId + 2 },
       { order_id := genId db.nextId, subtotal := pyRound2 S,
         payment := some
           { id := genId (db.nextId + 1), order_id := genId db.nextId, provider := "mock",
             amount := pyRound2 S, currency := "INR", status := "pending",
             transaction_id := none } }) := by
  simp [create_order, hcl, hpm]

/-- C1: an order-creation request in which some requested item id resolves to no
menu document fails with the 400 InvalidItem error naming an offending id; the
result is an `Except.error`, which carries no new store state, so no Order and
no PaymentRecord document is written — the pricing loop runs before any insert. -/
theorem create_order_invalid_item_no_write (db : DB) (p : OrderCreate)
    (h : ∃ it ∈ p.items, findDoc db.menuitem it.item_id = none) :
    ∃ i, (∃ it ∈ p.items, it.item_id = i) ∧ findDoc db.menuitem i = none ∧
      create_order db p = Except.error i := by
  have h' : ∃ it ∈ p.items, priceMapGet db.menuitem it.item_id = none := by
    obtain ⟨it, hit, hn⟩ := h
    exact ⟨it, hit, (priceMapGet_eq_none_iff _ _).mpr hn⟩
  obtain ⟨i, herr, hnone, hmem⟩ := computeLines_error db.menuitem p.items h'
  exact ⟨i, hmem, (priceMapGet_eq_none_iff _ _).mp hnone, by simp [create_order, herr]⟩

/-- Witness for C1 at a concrete store and request with one unresolvable id. -/
theorem create_order_invalid_item_no_write_witness :
    ∃ i, (∃ it ∈ pC1.items, it.item_id = i) ∧ findDoc dbC1.menuitem i = none ∧
      create_order dbC1 pC1 = Except.error i :=
  create_order_invalid_item_no_write dbC1 pC1 (by decide)

/-- C2: when all requested item ids resolve, the order is created; the response
subtotal and the stored order's subtotal both equal round(Σ price_i x qty_i, 2),
with the rounding applied exactly once to the accumulated (unrounded) sum. -/
theorem create_order_subtotal_rounded_once (db : DB) (p : OrderCreate)
    (hall : ∀ it ∈ p.items, findDoc db.menuitem it.item_id ≠ none)
    (hfresh : findDoc db.orders (genId db.nextId) = none) :
    ∃ db' r od, create_order db p = Except.ok (db', r) ∧
      findDoc db'.orders r.order_id = some od ∧
      r.subtotal = pyRound2 ((p.items.map (fun it =>
        (priceMapGet db.menuitem it.item_id).getD 0 * (it.quantity : ℚ))).sum) ∧
      od.subtotal = r.subtotal := by
  have hall' : ∀ it ∈ p.items, priceMapGet db.menuitem it.item_id ≠ none := by
    intro it hit
    intro hn
    exact hall it hit ((priceMapGet_eq_none_iff _ _).mp hn)
  have hcl := computeLines_ok db.menuitem p.items hall'
  cases hpm : p.payment_method with
  | cash =>
    exact ⟨_, _, _, create_order_ok_cash db p _ _ hcl hpm,
      findDoc_insertDoc_fresh _ _ _ hfresh, rfl, rfl⟩
  | online =>
    exact ⟨_, _, _, create_order_ok_online db p _ _ hcl hpm,
      findDoc_insertDoc_fresh _ _ _ hfresh, rfl, rfl⟩

/-- Witness for C2 at the worked example (price 120 x 2 plus price 75.50 x 1),
together with the concrete evaluation of the rounded sum to 315.50. -/
theorem create_order_subtotal_rounded_once_witness :
    (∃ db' r od, create_order dbC2 pC2 = Except.ok (db', r) ∧
      findDoc db'.orders r.order_id = some od ∧
      r.subtotal = pyRound2 ((pC2.items.map (fun it =>
        (priceMapGet dbC2.menuitem it.item_id).getD 0 * (it.quantity : ℚ))).sum) ∧
      od.subtotal = r.subtotal) ∧
    pyRound2 ((pC2.items.map (fun it =>
      (priceMapGet dbC2.menuitem it.item_id).getD 0 * (it.quantity : ℚ))).sum) = 631/2 := by
  refine ⟨create_order_subtotal_rounded_once dbC2 pC2 (by decide) (by decide), ?_⟩
  have hsum : ((pC2.items.map (fun it =>
      (priceMapGet dbC2.menuitem it.item_id).getD 0 * (it.quantity : ℚ))).sum) = 631/2 := by
    simp [pC2, dbC2, priceMapGet, findDoc]
    try norm_num
  rw [hsum, pyRound2_eq_self (631/2) 31550 (by norm_num)]

/-- C3 counterexample: with a menu price of 0.333 and quantity 1, the stored
line's line_total is 0.333, while rounding it to 2 decimal places gives 0.33,
so line totals are not rounded to exactly 2 decimal places as claimed. -/
theorem create_order_line_total_not_rounded_cex :
    ∃ db1 r od, create_order dbC3 pC3 = Except.ok (db1, r) ∧
      findDoc db1.orders r.order_id = some od ∧
      ∃ l ∈ od.items, l.line_total ≠ pyRound2 (l.price * (l.quantity : ℚ)) := by
  have hcl : computeLines dbC3.menuitem pC3.items =
      Except.ok ([{ item_id := "m", name := "Juice", price := 333/1000, quantity := 1,
                    line_total := 333/1000 }], 333/1000) := by
    simp [computeLines, priceMapGet, nameMapGet, findDoc, dbC3, pC3]
  refine ⟨_, _, _, create_order_ok_cash dbC3 pC3 _ _ hcl rfl,
    findDoc_insertDoc_fresh _ _ _ rfl, ?_⟩
  refine ⟨{ item_id := "m", name := "Juice", price := 333/1000, quantity := 1,
            line_total := 333/1000 }, by simp, ?_⟩
  have hc : ((333/1000 : ℚ) * ((1 : ℕ) : ℚ)) = 333/1000 := by norm_num
  have hr : pyRound2 ((333/1000 : ℚ) * ((1 : ℕ) : ℚ)) = ((33 : ℤ) : ℚ) / 100 := by
    rw [hc]
    exact pyRound2_eq_down (333/1000) 33 (by norm_num) (by norm_num)
  rw [hr]
  norm_num

/-- C3 amended: each stored line has line_total equal to the unrounded product
price x quantity; no per-line rounding is applied (only the subtotal is rounded),
and the creation response does not carry the line items at all. -/
theorem create_order_line_totals_unrounded (db : DB) (p : OrderCreate)
    (hall : ∀ it ∈ p.items, findDoc db.menuitem it.item_id ≠ none)
    (hfresh : findDoc db.orders (genId db.nextId) = none) :
    ∃ db1 r od, create_order db p = Except.ok (db1, r) ∧
      findDoc db1.orders r.order_id = some od ∧
      od.items = p.items.map (mkLine db.menuitem) ∧
      ∀ l ∈ od.items, l.line_total = l.price * (l.quantity : ℚ) := by
  have hall2 : ∀ it ∈ p.items, priceMapGet db.menuitem it.item_id ≠ none := by
    intro it hit hn
    exact hall it hit ((priceMapGet_eq_none_iff _ _).mp hn)
  have hcl := computeLines_ok db.menuitem p.items hall2
  have hlines : ∀ l ∈ p.items.map (mkLine db.menuitem),
      l.line_total = l.price * (l.quantity : ℚ) := by
    intro l hl
    obtain ⟨it, hit, rfl⟩ := List.mem_map.mp hl
    rfl
  cases hpm : p.payment_method with
  | cash =>
    exact ⟨_, _, _, create_order_ok_cash db p _ _ hcl hpm,
      findDoc_insertDoc_fresh _ _ _ hfresh, rfl, hlines⟩
  | online =>
    exact ⟨_, _, _, create_order_ok_online db p _ _ hcl hpm,
      findDoc_insertDoc_fresh _ _ _ hfresh, rfl, hlines⟩

/-- Witness for the amended C3 at the three-decimal-priced store. -/
theorem create_order_line_totals_unrounded_witness :
    ∃ db1 r od, create_order dbC3 pC3 = Except.ok (db1, r) ∧
      findDoc db1.orders r.order_id = some od ∧
      od.items = pC3.items.map (mkLine dbC3.menuitem) ∧
      ∀ l ∈ od.items, l.line_total = l.price * (l.quantity : ℚ) :=
  create_order_line_totals_unrounded dbC3 pC3 (by decide) (by decide)

/-- C4: for a cash order the response carries no payment object, the payment
collection is untouched, and payment_status starts unpaid; for an online order
a payment record with provider mock, amount equal to the stored (rounded)
subtotal and no transaction id is written under the id embedded in the response
payment object, and payment_status starts pending. -/
theorem create_order_payment_branches (db : DB) (p : OrderCreate)
    (hall : ∀ it ∈ p.items, findDoc db.menuitem it.item_id ≠ none)
    (hfresh : findDoc db.orders (genId db.nextId) = none)
    (hpfresh : findDoc db.payments (genId (db.nextId + 1)) = none) :
    ∃ db1 r od, create_order db p = Except.ok (db1, r) ∧
      findDoc db1.orders r.order_id = some od ∧
      (p.payment_method = PaymentMethod.cash →
        r.payment = none ∧ db1.payments = db.payments ∧
        od.payment_status = PaymentStatus.unpaid) ∧
      (p.payment_method = PaymentMethod.online →
        ∃ pr pd, r.payment = some pr ∧ findDoc db1.payments pr.id = some pd ∧
          pd.provider = "mock" ∧ pd.amount = od.subtotal ∧ pd.transaction_id = none ∧
          pd.order_id = r.order_id ∧ od.payment_status = PaymentStatus.pending) := by
  have hall2 : ∀ it ∈ p.items, priceMapGet db.menuitem it.item_id ≠ none := by
    intro it hit hn
    exact hall it hit ((priceMapGet_eq_none_iff _ _).mp hn)
  have hcl := computeLines_ok db.menuitem p.items hall2
  cases hpm : p.payment_method with
  | cash =>
    refine ⟨_, _, _, create_order_ok_cash db p _ _ hcl hpm,
      findDoc_insertDoc_fresh _ _ _ hfresh, ?_, ?_⟩
    · intro _
      exact ⟨rfl, rfl, rfl⟩
    · intro h
      exact absurd h (by simp)
  | online =>
    refine ⟨_, _, _, create_order_ok_online db p _ _ hcl hpm,
      findDoc_insertDoc_fresh _ _ _ hfresh, ?_, ?_⟩
    · intro h
      exact absurd h (by simp)
    · intro _
      exact ⟨_, _, rfl, findDoc_insertDoc_fresh _ _ _ hpfresh, rfl, rfl, rfl, rfl, rfl⟩

/-- Witness for C4 at a concrete online order of two units at price 50. -/
theorem create_order_payment_branches_witness :
    ∃ db1 r od, create_order dbC4 pC4 = Except.ok (db1, r) ∧
      findDoc db1.orders r.order_id = some od ∧
      (pC4.payment_method = PaymentMethod.cash →
        r.payment = none ∧ db1.payments = dbC4.payments ∧
        od.payment_status = PaymentStatus.unpaid) ∧
      (pC4.payment_method = PaymentMethod.online →
        ∃ pr pd, r.payment = some pr ∧ findDoc db1.payments pr.id = some pd ∧
          pd.provider = "mock" ∧ pd.amount = od.subtotal ∧ pd.transaction_id = none ∧
          pd.order_id = r.order_id ∧ od.payment_status = PaymentStatus.pending) :=
  create_order_payment_branches dbC4 pC4 (by decide) (by decide) (by decide)

/-- C5: for any existing order — regardless of its payment_method or prior
payment_status — `confirm_mock_payment` with outcome succeeded sets the
payment_status to paid and with outcome failed sets it to failed, and after a
second call the final payment_status is the one determined by the last call. -/
theorem confirm_payment_unconditional_last_wins (db : DB) (i : String) (o : OrderDoc)
    (h : findDoc db.orders i = some o) (o1 : PaymentOutcome) :
    ∃ db1, confirm_mock_payment db i o1 = Except.ok (db1, confirmTarget o1) ∧
      findDoc db1.orders i = some { o with payment_status := confirmTarget o1 } ∧
      ∀ o2, ∃ db2, confirm_mock_payment db1 i o2 = Except.ok (db2, confirmTarget o2) ∧
        findDoc db2.orders i = some { o with payment_status := confirmTarget o2 } := by
  refine ⟨{ db with orders := setDoc db.orders i { o with payment_status := confirmTarget o1 } }, ?_, ?_, ?_⟩
  · simp [confirm_mock_payment, h]
  · exact findDoc_setDoc_self _ _ _ _ h
  · intro o2
    have h1 : findDoc (setDoc db.orders i { o with payment_status := confirmTarget o1 }) i =
        some { o with payment_status := confirmTarget o1 } :=
      findDoc_setDoc_self _ _ _ _ h
    refine ⟨{ db with orders := setDoc (setDoc db.orders i { o with payment_status := confirmTarget o1 }) i { o with payment_status := confirmTarget o2 } }, ?_, ?_⟩
    · simp [confirm_mock_payment, h1]
    · exact findDoc_setDoc_self _ _ _ _ h1

/-- Witness for C5 at a cash order whose payment_status was unpaid: the
succeeded outcome still moves it to paid, and a following failed call wins. -/
theorem confirm_payment_unconditional_last_wins_witness :
    ∃ db1, confirm_mock_payment dbC5 "o5" PaymentOutcome.succeeded =
        Except.ok (db1, confirmTarget PaymentOutcome.succeeded) ∧
      findDoc db1.orders "o5" =
        some { odC5 with payment_status := confirmTarget PaymentOutcome.succeeded } ∧
      ∀ o2, ∃ db2, confirm_mock_payment db1 "o5" o2 = Except.ok (db2, confirmTarget o2) ∧
        findDoc db2.orders "o5" = some { odC5 with payment_status := confirmTarget o2 } :=
  confirm_payment_unconditional_last_wins dbC5 "o5" odC5 rfl PaymentOutcome.succeeded

/-- C6: `set_order_status` fails with 404 when the order id matches no stored
order, and for an existing order it accepts every status value unconditionally,
whatever the previous status was, storing the new status. -/
theorem set_order_status_spec (db : DB) (i : String) :
    (findDoc db.orders i = none → ∀ st, set_order_status db i st = Except.error 404) ∧
    (∀ o, findDoc db.orders i = some o → ∀ st, ∃ db1,
      set_order_status db i st = Except.ok db1 ∧
      findDoc db1.orders i = some { o with status := st }) := by
  constructor
  · intro h st
    simp [set_order_status, h]
  · intro o h st
    refine ⟨{ db with orders := setDoc db.orders i { o with status := st } }, ?_, ?_⟩
    · simp [set_order_status, h]
    · exact findDoc_setDoc_self _ _ _ _ h

/-- Witness for C6: a miss on an absent id yields 404, and a served order is
moved back to pending (no transition-graph restriction). -/
theorem set_order_status_spec_witness :
    set_order_status dbC6 "nope" OrderStatus.preparing = Except.error 404 ∧
    ∃ db1, set_order_status dbC6 "o6" OrderStatus.pending = Except.ok db1 ∧
      findDoc db1.orders "o6" = some { odC6 with status := OrderStatus.pending } :=
  ⟨(set_order_status_spec dbC6 "nope").1 rfl OrderStatus.preparing,
   (set_order_status_spec dbC6 "o6").2 odC6 rfl OrderStatus.pending⟩

/-- C7: a menu update writes only to the menuitem collection: whenever
`update_menu_item` succeeds, the order and payment collections of the store —
and with them every stored order's snapshotted line items and subtotal — are
exactly as before, so a later price change never touches an existing order. -/
theorem update_menu_item_frame (db : DB) (i : String) (u : MenuUpdate) (db1 : DB)
    (h : update_menu_item db i u = Except.ok db1) :
    db1.orders = db.orders ∧ db1.payments = db.payments := by
  unfold update_menu_item at h
  cases hf : findDoc db.menuitem i with
  | none =>
    rw [hf] at h
    cases h
  | some d =>
    rw [hf] at h
    cases h
    exact ⟨rfl, rfl⟩

/-- Witness for C7: raising m7's price from 40 to 60 leaves the stored order
o7, which snapshots the old price, untouched. -/
theorem update_menu_item_frame_witness :
    updatedC7.orders = dbC7.orders ∧ updatedC7.payments = dbC7.payments :=
  update_menu_item_frame dbC7 "m7" uC7 updatedC7 rfl

theorem findDoc_clearAvail (l : List (String × MenuDoc)) (i : String) :
    findDoc (l.map (fun kd => (kd.1, clearAvail kd.2))) i = (findDoc l i).map clearAvail := by
  induction l with
  | nil => rfl
  | cons hd tl ih =>
    obtain ⟨k, w⟩ := hd
    by_cases hk : k = i
    · simp [findDoc, hk]
    · simp only [List.map_cons, findDoc, if_neg hk]
      exact ih

theorem priceMapGet_clearAvail (l : List (String × MenuDoc)) (i : String) :
    priceMapGet (l.map (fun kd => (kd.1, clearAvail kd.2))) i = priceMapGet l i := by
  unfold priceMapGet
  rw [findDoc_clearAvail]
  cases findDoc l i <;> rfl

theorem nameMapGet_clearAvail (l : List (String × MenuDoc)) (i : String) :
    nameMapGet (l.map (fun kd => (kd.1, clearAvail kd.2))) i = nameMapGet l i := by
  unfold nameMapGet
  rw [findDoc_clearAvail]
  cases findDoc l i <;> rfl

theorem computeLines_clearAvail (l : List (String × MenuDoc)) (items : List OrderItemIn) :
    computeLines (l.map (fun kd => (kd.1, clearAvail kd.2))) items =
      computeLines l items := by
  induction items with
  | nil => rfl
  | cons it rest ih =>
    simp only [computeLines, priceMapGet_clearAvail, nameMapGet_clearAvail, ih]

/-- C8: order creation never reads the availability flag: marking every menu
item unavailable changes neither the acceptance, the pricing, the stored order
and payment documents, nor the response of any order-creation request — the
menu lookup filters by id only. -/
theorem create_order_ignores_availability (db : DB) (p : OrderCreate) :
    Except.map (fun x => (x.1.orders, x.1.payments, x.2)) (create_order (setUnavailable db) p) =
    Except.map (fun x => (x.1.orders, x.1.payments, x.2)) (create_order db p) := by
  unfold create_order setUnavailable
  rw [show ({ db with menuitem := db.menuitem.map (fun kd => (kd.1, clearAvail kd.2)) } : DB).menuitem = db.menuitem.map (fun kd => (kd.1, clearAvail kd.2)) from rfl, computeLines_clearAvail]
  cases computeLines db.menuitem p.items with
  | error e => rfl
  | ok v =>
    obtain ⟨lines, S⟩ := v
    cases p.payment_method <;> rfl

/-- C9: a menu document that exists but lacks a price field does not trigger
InvalidItem; the item is priced at 0, so its stored line has price 0 and
line_total 0, contributing 0 to the subtotal. -/
theorem create_order_missing_price_zero (db : DB) (p : OrderCreate) (iid : String)
    (d : MenuDoc) (hd : findDoc db.menuitem iid = some d) (hp : d.price = none)
    (hall : ∀ it ∈ p.items, findDoc db.menuitem it.item_id ≠ none)
    (hfresh : findDoc db.orders (genId db.nextId) = none) :
    ∃ db1 r od, create_order db p = Except.ok (db1, r) ∧
      findDoc db1.orders r.order_id = some od ∧
      ∀ l ∈ od.items, l.item_id = iid → l.price = 0 ∧ l.line_total = 0 := by
  have hall2 : ∀ it ∈ p.items, priceMapGet db.menuitem it.item_id ≠ none := by
    intro it hit hn
    exact hall it hit ((priceMapGet_eq_none_iff _ _).mp hn)
  have hcl := computeLines_ok db.menuitem p.items hall2
  have hmain : ∀ l ∈ p.items.map (mkLine db.menuitem), l.item_id = iid →
      l.price = 0 ∧ l.line_total = 0 := by
    intro l hl heq
    obtain ⟨it, hit, rfl⟩ := List.mem_map.mp hl
    have hiid : it.item_id = iid := heq
    have hpg : priceMapGet db.menuitem it.item_id = some 0 := by
      unfold priceMapGet
      rw [hiid, hd]
      simp [hp]
    constructor
    · show (priceMapGet db.menuitem it.item_id).getD 0 = 0
      rw [hpg]
      rfl
    · show (priceMapGet db.menuitem it.item_id).getD 0 * (it.quantity : ℚ) = 0
      rw [hpg]
      simp
  cases hpm : p.payment_method with
  | cash =>
    exact ⟨_, _, _, create_order_ok_cash db p _ _ hcl hpm,
      findDoc_insertDoc_fresh _ _ _ hfresh, hmain⟩
  | online =>
    exact ⟨_, _, _, create_order_ok_online db p _ _ hcl hpm,
      findDoc_insertDoc_fresh _ _ _ hfresh, hmain⟩

/-- Witness for C9 at a store whose only menu document has no price field. -/
theorem create_order_missing_price_zero_witness :
    ∃ db1 r od, create_order dbC9 pC9 = Except.ok (db1, r) ∧
      findDoc db1.orders r.order_id = some od ∧
      ∀ l ∈ od.items, l.item_id = "m9" → l.price = 0 ∧ l.line_total = 0 :=
  create_order_missing_price_zero dbC9 pC9 "m9" mC9 rfl rfl (by decide) rfl

/-- C10: the menu update merge applies exactly the non-null payload fields:
an optional stored field that is set can never come back null (it cannot be
cleared), and every field whose payload value is null keeps its stored value. -/
theorem update_menu_item_partial (db : DB) (i : String) (u : MenuUpdate) (d : MenuDoc)
    (hd : findDoc db.menuitem i = some d) :
    ∃ db1, update_menu_item db i u = Except.ok db1 ∧
      findDoc db1.menuitem i = some (applyMenuUpdate u d) ∧
      ((applyMenuUpdate u d).description = none → d.description = none) ∧
      ((applyMenuUpdate u d).category = none → d.category = none) ∧
      ((applyMenuUpdate u d).image_url = none → d.image_url = none) ∧
      (u.description = none → (applyMenuUpdate u d).description = d.description) ∧
      (u.category = none → (applyMenuUpdate u d).category = d.category) ∧
      (u.image_url = none → (applyMenuUpdate u d).image_url = d.image_url) ∧
      (u.name = none → (applyMenuUpdate u d).name = d.name) ∧
      (u.price = none → (applyMenuUpdate u d).price = d.price) ∧
      (u.is_available = none → (applyMenuUpdate u d).is_available = d.is_available) := by
  refine ⟨{ db with menuitem := setDoc db.menuitem i (applyMenuUpdate u d) },
    by simp [update_menu_item, hd], findDoc_setDoc_self _ _ _ _ hd,
    ?_, ?_, ?_, ?_, ?_, ?_, ?_, ?_, ?_⟩
  · cases hu : u.description <;> simp [applyMenuUpdate, hu]
  · cases hu : u.category <;> simp [applyMenuUpdate, hu]
  · cases hu : u.image_url <;> simp [applyMenuUpdate, hu]
  · intro hu
    simp [applyMenuUpdate, hu]
  · intro hu
    simp [applyMenuUpdate, hu]
  · intro hu
    simp [applyMenuUpdate, hu]
  · intro hu
    simp [applyMenuUpdate, hu]
  · intro hu
    simp [applyMenuUpdate, hu]
  · intro hu
    simp [applyMenuUpdate, hu]

/-- Witness for C10 at a fully populated menu document and an all-null update:
every stored field survives the merge. -/
theorem update_menu_item_partial_witness :
    ∃ db1, update_menu_item dbC10 "m10" uC10 = Except.ok db1 ∧
      findDoc db1.menuitem "m10" = some (applyMenuUpdate uC10 mC10) ∧
      ((applyMenuUpdate uC10 mC10).description = none → mC10.description = none) ∧
      ((applyMenuUpdate uC10 mC10).category = none → mC10.category = none) ∧
      ((applyMenuUpdate uC10 mC10).image_url = none → mC10.image_url = none) ∧
      (uC10.description = none → (applyMenuUpdate uC10 mC10).description = mC10.description) ∧
      (uC10.category = none → (applyMenuUpdate uC10 mC10).category = mC10.category) ∧
      (uC10.image_url = none → (applyMenuUpdate uC10 mC10).image_url = mC10.image_url) ∧
      (uC10.name = none → (applyMenuUpdate uC10 mC10).name = mC10.name) ∧
      (uC10.price = none → (applyMenuUpdate uC10 mC10).price = mC10.price) ∧
      (uC10.is_available = none → (applyMenuUpdate uC10 mC10).is_available = mC10.is_available) :=
  update_menu_item_partial dbC10 "m10" uC10 mC10 rfl

end SmartRestaurant
